import Mathlib

/-!
Shallow embedding of the OAuth2 credential-lifecycle core of the repository
(`src/server/routes/oauth.js` and `src/server/services/oauthTokenManager.js`).

Modelling conventions:
* Time is a `Nat` of milliseconds, passed explicitly where the JS calls
  `Date.now()`; a single handler invocation reads one fixed `now`.
* The two process-wide maps (`tokenStore`, `oauthStateStore`) are embedded
  as functions `String → Option _`; `Map.set`/`Map.delete` become pointwise
  function update.  Their implementation files are not under `src/`, so this
  follows the spec's description of them as pure keyed storage.
* JS string truthiness (`if (x)`) on query/body fields is modelled by
  `truthyStr : Option String → Bool` (absent or empty string is falsy).
* Provider network calls (`fetch`) are modelled by passing the call's result
  as an explicit argument of type `FetchResult _`; `notOk` is a response with
  `ok === false`, `thrown` is a rejected promise / network error.
* HTTP responses and redirects are modelled as inductive outcome values; JS
  object mutation of a record held in the `Map` (`tokenData.isRefreshing =
  false` on an object obtained from `tokenStore.get`) is modelled as an
  explicit store write of the updated record, which is what the mutation
  amounts to since the `Map` stores the object by reference.
-/

/-- Result of an awaited `fetch` call: a response with `ok` true and a parsed
JSON body, a response with `ok` false (carrying the HTTP status), or a thrown
network error. -/
inductive FetchResult (α : Type) where
  | ok (body : α)
  | notOk (status : Nat) (errMsg : String)
  | thrown (msg : String)
deriving Repr, DecidableEq

/-- Token record stored in `tokenStore`, as written by the callback, refresh
and token handlers.  The JS object written by the callback has no
`isRefreshing` key (undefined, hence falsy); this is modelled by an explicit
`false`. -/
structure TokenRecord where
  accessToken : String
  refreshToken : String
  expiresAt : Nat
  refreshTokenExpiresAt : Nat
  realmId : String
  environment : String
  updatedAt : Nat
  isRefreshing : Bool
deriving Repr, DecidableEq

/-- CSRF state record stored in `oauthStateStore` by the authorize handler. -/
structure StateRecord where
  createdAt : Nat
  redirectUri : String
deriving Repr, DecidableEq

/-- JSON body returned by the provider's token endpoint for
`grant_type=refresh_token`.  `refresh_token` and
`x_refresh_token_expires_in` are optional: the handlers probe them with JS
truthiness (`newTokenData.refresh_token || ...`,
`newTokenData.x_refresh_token_expires_in ? ... : ...`), so an absent, empty
or zero value is modelled as `none`. -/
structure RefreshBody where
  access_token : String
  refresh_token : Option String
  expires_in : Nat
  x_refresh_token_expires_in : Option Nat
deriving Repr, DecidableEq

/-- JSON body returned by the provider's token endpoint for
`grant_type=authorization_code`.  The callback handlers read all four fields
directly, without truthiness fallbacks. -/
structure ExchangeBody where
  access_token : String
  refresh_token : String
  expires_in : Nat
  x_refresh_token_expires_in : Nat
deriving Repr, DecidableEq

/-- Combined mutable state of the process: the two module-level stores. -/
structure Sys where
  tokenStore : String → Option TokenRecord
  stateStore : String → Option StateRecord

/-- Pointwise update of a keyed store (`Map.set` for `some`, `Map.delete`
for `none`). -/
def updStore {α : Type} (f : String → Option α) (k : String) (v : Option α) :
    String → Option α :=
  fun x => if x = k then v else f x

/-- Write a token record (`tokenStore.set(realmId, rec)`). -/
def Sys.setTok (s : Sys) (k : String) (r : TokenRecord) : Sys :=
  { s with tokenStore := updStore s.tokenStore k (some r) }

/-- Delete a token record (`tokenStore.delete(realmId)`). -/
def Sys.delTok (s : Sys) (k : String) : Sys :=
  { s with tokenStore := updStore s.tokenStore k none }

/-- Write a state record (`oauthStateStore.set(state, rec)`). -/
def Sys.setState (s : Sys) (k : String) (r : StateRecord) : Sys :=
  { s with stateStore := updStore s.stateStore k (some r) }

/-- Delete a state record (`oauthStateStore.delete(state)`). -/
def Sys.delState (s : Sys) (k : String) : Sys :=
  { s with stateStore := updStore s.stateStore k none }

/-- JS truthiness of an optional string query/body field: absent or empty
is falsy. -/
def truthyStr : Option String → Bool
  | none => false
  | some s => s != ""

/-- Milliseconds in the 5-minute early-refresh window. -/
def fiveMinutesMs : Nat := 5 * 60 * 1000

/-- Milliseconds in the 10-minute state TTL. -/
def tenMinutesMs : Nat := 10 * 60 * 1000

/-- Outcome of `getAccessToken` in `oauthTokenManager.js`: the returned
`(accessToken, realmId)` pair on success, or the thrown error. -/
inductive TokenOutcome where
  | errRealmRequired
  | errNotConnected
  | errRefreshFailed (msg : String)
  | errThrown (msg : String)
  | ok (accessToken : String) (realmId : String)
deriving Repr, DecidableEq

/-- Result of one run of `getAccessToken`: the outcome, the resulting store
state, and whether a network call to the provider's token endpoint was
issued during the run. -/
structure TokenRun where
  outcome : TokenOutcome
  sys : Sys
  networkCall : Bool

/-- Record written by `getAccessToken` after a successful refresh
(oauthTokenManager.js lines 57-68): new access token, the new refresh token
if the provider issued one else the old one, absolute expiries from the
relative lifetimes, environment from the process configuration. -/
def refreshedRecord (old : TokenRecord) (body : RefreshBody) (realmId : String)
    (environment : String) (now : Nat) : TokenRecord :=
  { accessToken := body.access_token
    refreshToken := (body.refresh_token).getD old.refreshToken
    expiresAt := now + body.expires_in * 1000
    refreshTokenExpiresAt :=
      match body.x_refresh_token_expires_in with
      | some x => now + x * 1000
      | none => old.refreshTokenExpiresAt
    realmId := realmId
    environment := environment
    updatedAt := now
    isRefreshing := false }

/-- Staleness test used by the status, token and manager code paths:
`Date.now() >= tokenData.expiresAt - 5 * 60 * 1000` (truncated `Nat`
subtraction agrees with the JS comparison for all reachable values). -/
def needsRefreshAt (rec : TokenRecord) (now : Nat) : Bool :=
  now ≥ rec.expiresAt - fiveMinutesMs

/-- Embedding of `getAccessToken(realmId)` from
`src/server/services/oauthTokenManager.js`.  `fetchRes` is the result of the
provider refresh call, consumed only on the branch that issues it. -/
def getAccessToken (realmId : String) (fetchRes : FetchResult RefreshBody)
    (environment : String) (now : Nat) (s : Sys) : TokenRun :=
  if realmId = "" then
    { outcome := TokenOutcome.errRealmRequired, sys := s, networkCall := false }
  else
    match s.tokenStore realmId with
    | none => { outcome := TokenOutcome.errNotConnected, sys := s, networkCall := false }
    | some rec =>
      if needsRefreshAt rec now ∧ rec.isRefreshing = false then
        -- mark as refreshing, then await the provider call
        let s1 := s.setTok realmId { rec with isRefreshing := true }
        match fetchRes with
        | FetchResult.ok body =>
          let newRec := refreshedRecord rec body realmId environment now
          { outcome := TokenOutcome.ok newRec.accessToken newRec.realmId
            sys := s1.setTok realmId newRec
            networkCall := true }
        | FetchResult.notOk _ errMsg =>
          -- lines 50-53: flag reset in place, error thrown; the catch block
          -- (lines 70-73) resets the flag again and re-stores the record
          { outcome := TokenOutcome.errRefreshFailed errMsg
            sys := s1.setTok realmId { rec with isRefreshing := false }
            networkCall := true }
        | FetchResult.thrown msg =>
          { outcome := TokenOutcome.errThrown msg
            sys := s1.setTok realmId { rec with isRefreshing := false }
            networkCall := true }
      else
        { outcome := TokenOutcome.ok rec.accessToken rec.realmId
          sys := s, networkCall := false }

/-- Outcome of GET `/api/oauth/authorize` (oauth.js lines 28-78): either the
JSON `{success:true, authUrl, state}` or the 500 configuration error. -/
inductive AuthorizeOutcome where
  | ok (state : String)
  | configError
deriving Repr, DecidableEq

/-- Sweep of `oauthStateStore` performed by the authorize handler (oauth.js
lines 50-56): every entry with `createdAt < now - 10 minutes` is deleted.
The JS iterates `entries()` and deletes matching keys; pointwise filtering
of the map is the same function. -/
def purgeStates (store : String → Option StateRecord) (now : Nat) :
    String → Option StateRecord :=
  fun k =>
    match store k with
    | some r => if r.createdAt < now - tenMinutesMs then none else some r
    | none => none

/-- Embedding of GET `/api/oauth/authorize`.  `configured` models the
presence of `QUICKBOOKS_CLIENT_ID`/`QUICKBOOKS_CLIENT_SECRET`; `newState` is
the freshly generated random state value; `redirectUri` the configured or
derived redirect URI.  The handler stores the new StateRecord and then
purges entries older than ten minutes. -/
def authorizeHandler (configured : Bool) (newState redirectUri : String)
    (now : Nat) (s : Sys) : AuthorizeOutcome × Sys :=
  if configured = false then
    (AuthorizeOutcome.configError, s)
  else
    let s1 := s.setState newState { createdAt := now, redirectUri := redirectUri }
    (AuthorizeOutcome.ok newState,
      { s1 with stateStore := purgeStates s1.stateStore now })

/-- Query string of the OAuth callback. -/
structure CallbackQuery where
  code : Option String
  state : Option String
  realmId : Option String
  error : Option String
deriving Repr, DecidableEq

/-- Outcome of GET `/api/oauth/callback` (oauth.js lines 84-153), with each
redirect target abstracted to its reason: `authDenied` is the
`oauth_error=<providerError>` redirect, `malformed` the missing code/state
redirect, `invalidOrExpiredState` the invalid-state redirect,
`exchangeFailed` the failed-exchange redirect, `callbackError` the outer
catch redirect, and `success` the `oauth_success=true&realmId=...`
redirect. -/
inductive CallbackOutcome where
  | authDenied (providerError : String)
  | malformed
  | invalidOrExpiredState
  | exchangeFailed
  | callbackError (msg : String)
  | success (realmId : Option String)
deriving Repr, DecidableEq

/-- Token record stored by the callback on exchange success (oauth.js lines
134-144): all four provider fields read directly, absolute expiries from
the relative lifetimes, no `isRefreshing` key (modelled as `false`). -/
def exchangedRecord (body : ExchangeBody) (realmId environment : String)
    (now : Nat) : TokenRecord :=
  { accessToken := body.access_token
    refreshToken := body.refresh_token
    expiresAt := now + body.expires_in * 1000
    refreshTokenExpiresAt := now + body.x_refresh_token_expires_in * 1000
    realmId := realmId
    environment := environment
    updatedAt := now
    isRefreshing := false }

/-- Embedding of GET `/api/oauth/callback`.  `exch` is the result of the
authorization-code exchange at the provider's token endpoint, consumed only
after the state check passes.  The state record is deleted as soon as it is
found, before the exchange is awaited. -/
def callbackHandler (q : CallbackQuery) (exch : FetchResult ExchangeBody)
    (environment : String) (now : Nat) (s : Sys) : CallbackOutcome × Sys :=
  if truthyStr q.error then
    (CallbackOutcome.authDenied ((q.error).getD ""), s)
  else if truthyStr q.code = false ∨ truthyStr q.state = false then
    (CallbackOutcome.malformed, s)
  else
    let stv := (q.state).getD ""
    match s.stateStore stv with
    | none => (CallbackOutcome.invalidOrExpiredState, s)
    | some _ =>
      let s1 := s.delState stv
      match exch with
      | FetchResult.notOk _ _ => (CallbackOutcome.exchangeFailed, s1)
      | FetchResult.thrown msg => (CallbackOutcome.callbackError msg, s1)
      | FetchResult.ok body =>
        if truthyStr q.realmId then
          let rid := (q.realmId).getD ""
          (CallbackOutcome.success q.realmId,
            s1.setTok rid (exchangedRecord body rid environment now))
        else
          (CallbackOutcome.success q.realmId, s1)

/-- Response of GET `/api/oauth/status` (oauth.js lines 159-201): connected
false when no realmId or no record, otherwise the connected payload. -/
inductive StatusOutcome where
  | noRealmId
  | notConnected
  | connected (realmId environment : String) (expiresAt expiresIn : Nat)
      (needsRefresh isExpired : Bool)
deriving Repr, DecidableEq

/-- Reports whether a status response has `connected: true`. -/
def StatusOutcome.isConnected : StatusOutcome → Bool
  | StatusOutcome.connected _ _ _ _ _ _ => true
  | _ => false

/-- Embedding of GET `/api/oauth/status`: a pure read of `tokenStore`.
`expiresIn` is `max 0 (floor ((expiresAt - now)/1000))`, which truncated
`Nat` subtraction and division compute directly. -/
def statusHandler (realmId : Option String) (now : Nat) (s : Sys) :
    StatusOutcome :=
  if truthyStr realmId = false then
    StatusOutcome.noRealmId
  else
    match s.tokenStore ((realmId).getD "") with
    | none => StatusOutcome.notConnected
    | some rec =>
      StatusOutcome.connected rec.realmId rec.environment rec.expiresAt
        ((rec.expiresAt - now) / 1000)
        (needsRefreshAt rec now)
        (decide (now ≥ rec.expiresAt))

/-- Outcome of POST `/api/oauth/refresh` (oauth.js lines 207-297). -/
inductive RefreshOutcome where
  | badRequest
  | notFound
  | refreshTokenExpired
  | refreshRejected (status : Nat) (errMsg : String)
  | serverError (msg : String)
  | ok (expiresIn : Nat)
deriving Repr, DecidableEq

/-- Embedding of POST `/api/oauth/refresh`.  `fetchRes` is the provider
refresh call's result, consumed only after the record and refresh-token
expiry checks pass. -/
def refreshHandler (realmId : Option String) (fetchRes : FetchResult RefreshBody)
    (environment : String) (now : Nat) (s : Sys) : RefreshOutcome × Sys :=
  if truthyStr realmId = false then
    (RefreshOutcome.badRequest, s)
  else
    let rid := (realmId).getD ""
    match s.tokenStore rid with
    | none => (RefreshOutcome.notFound, s)
    | some rec =>
      if rec.refreshToken = "" then
        (RefreshOutcome.notFound, s)
      else if now ≥ rec.refreshTokenExpiresAt then
        (RefreshOutcome.refreshTokenExpired, s.delTok rid)
      else
        match fetchRes with
        | FetchResult.notOk status errMsg =>
          (RefreshOutcome.refreshRejected status errMsg, s.delTok rid)
        | FetchResult.thrown msg =>
          (RefreshOutcome.serverError msg, s)
        | FetchResult.ok body =>
          (RefreshOutcome.ok body.expires_in,
            s.setTok rid (refreshedRecord rec body rid environment now))

/-- Outcome of GET `/api/oauth/token` (oauth.js lines 303-396). -/
inductive TokenRouteOutcome where
  | badRequest
  | notFoundRequiresAuth
  | refreshFailedReconnect
  | serverError (msg : String)
  | ok (accessToken realmId : String) (expiresAt expiresIn : Nat)
deriving Repr, DecidableEq

/-- Result of one run of the `/token` route: outcome, resulting state, and
whether a provider network call was issued. -/
structure TokenRouteRun where
  outcome : TokenRouteOutcome
  sys : Sys
  networkCall : Bool

/-- Embedding of GET `/api/oauth/token` with auto-refresh.  The refresh
branch mirrors `getAccessToken`; on a non-ok provider response the handler
resets the in-flight flag in place and answers 401 without deleting the
record (oauth.js lines 366-374). -/
def tokenRouteHandler (realmId : Option String)
    (fetchRes : FetchResult RefreshBody) (environment : String) (now : Nat)
    (s : Sys) : TokenRouteRun :=
  if truthyStr realmId = false then
    { outcome := TokenRouteOutcome.badRequest, sys := s, networkCall := false }
  else
    let rid := (realmId).getD ""
    match s.tokenStore rid with
    | none =>
      { outcome := TokenRouteOutcome.notFoundRequiresAuth, sys := s
        networkCall := false }
    | some rec =>
      if needsRefreshAt rec now ∧ rec.isRefreshing = false then
        let s1 := s.setTok rid { rec with isRefreshing := true }
        match fetchRes with
        | FetchResult.ok body =>
          let newRec := refreshedRecord rec body rid environment now
          { outcome := TokenRouteOutcome.ok newRec.accessToken newRec.realmId
              newRec.expiresAt ((newRec.expiresAt - now) / 1000)
            sys := s1.setTok rid newRec
            networkCall := true }
        | FetchResult.notOk _ _ =>
          { outcome := TokenRouteOutcome.refreshFailedReconnect
            sys := s1.setTok rid { rec with isRefreshing := false }
            networkCall := true }
        | FetchResult.thrown msg =>
          { outcome := TokenRouteOutcome.serverError msg
            sys := s1.setTok rid { rec with isRefreshing := false }
            networkCall := true }
      else
        { outcome := TokenRouteOutcome.ok rec.accessToken rec.realmId
            rec.expiresAt ((rec.expiresAt - now) / 1000)
          sys := s, networkCall := false }

/-- Outcome of POST `/api/oauth/revoke` (oauth.js lines 402-458): both the
no-record case and the revoked case answer `{success:true}`. -/
inductive RevokeOutcome where
  | badRequest
  | okNothingToRevoke
  | okRevoked
deriving Repr, DecidableEq

/-- Embedding of POST `/api/oauth/revoke`.  The provider revoke call sits in
its own try/catch whose failure is only logged (oauth.js lines 428-442), and
its response is never inspected, so `revokeRes` does not influence the
result: local deletion always proceeds. -/
def revokeHandler (realmId : Option String) (revokeRes : FetchResult Unit)
    (s : Sys) : RevokeOutcome × Sys :=
  if truthyStr realmId = false then
    (RevokeOutcome.badRequest, s)
  else
    let rid := (realmId).getD ""
    match s.tokenStore rid with
    | none => (RevokeOutcome.okNothingToRevoke, s)
    | some _ =>
      match revokeRes with
      | _ => (RevokeOutcome.okRevoked, s.delTok rid)

/-- State of a `getAccessToken` invocation at its only suspension point:
either the run finished synchronously without touching the network, or it
set the in-flight flag and is awaiting the provider's response (the code
between `tokenStore.set` on line 26 and the `await fetch` on line 37 of
`oauthTokenManager.js`). -/
inductive Phase1Result where
  | done (out : TokenOutcome)
  | awaitingFetch (rec : TokenRecord)
deriving Repr, DecidableEq

/-- Synchronous prefix of `getAccessToken`, up to the `await fetch`.  Node's
run-to-completion semantics executes this atomically: no other request is
interleaved between the `isRefreshing` check and the flag being set. -/
def getAccessTokenPhase1 (realmId : String) (now : Nat) (s : Sys) :
    Phase1Result × Sys :=
  if realmId = "" then
    (Phase1Result.done TokenOutcome.errRealmRequired, s)
  else
    match s.tokenStore realmId with
    | none => (Phase1Result.done TokenOutcome.errNotConnected, s)
    | some rec =>
      if needsRefreshAt rec now ∧ rec.isRefreshing = false then
        (Phase1Result.awaitingFetch rec,
          s.setTok realmId { rec with isRefreshing := true })
      else
        (Phase1Result.done (TokenOutcome.ok rec.accessToken rec.realmId), s)

/-- Continuation of `getAccessToken` after the provider call resolves,
running against whatever store state holds at that moment.  `rec` is the
record read before the await (the same object the JS closure holds). -/
def getAccessTokenPhase2 (realmId : String) (rec : TokenRecord)
    (fetchRes : FetchResult RefreshBody) (environment : String) (now : Nat)
    (s : Sys) : TokenRun :=
  match fetchRes with
  | FetchResult.ok body =>
    let newRec := refreshedRecord rec body realmId environment now
    { outcome := TokenOutcome.ok newRec.accessToken newRec.realmId
      sys := s.setTok realmId newRec
      networkCall := true }
  | FetchResult.notOk _ errMsg =>
    { outcome := TokenOutcome.errRefreshFailed errMsg
      sys := s.setTok realmId { rec with isRefreshing := false }
      networkCall := true }
  | FetchResult.thrown msg =>
    { outcome := TokenOutcome.errThrown msg
      sys := s.setTok realmId { rec with isRefreshing := false }
      networkCall := true }

/-- Concrete token record used to evaluate the handlers: stale at time
900000 (five-minute window starts at 700000), refresh token valid until
9000000, issued by the production deployment. -/
def sampleRec : TokenRecord :=
  { accessToken := "oldAT", refreshToken := "oldRT", expiresAt := 1000000
    refreshTokenExpiresAt := 9000000, realmId := "realm1"
    environment := "production", updatedAt := 0, isRefreshing := false }

/-- Concrete provider refresh response with rotated refresh token. -/
def sampleBody : RefreshBody :=
  { access_token := "newAT", refresh_token := some "newRT"
    expires_in := 3600, x_refresh_token_expires_in := some 8726400 }

/-- Concrete provider code-exchange response. -/
def sampleExchange : ExchangeBody :=
  { access_token := "exAT", refresh_token := "exRT", expires_in := 3600
    x_refresh_token_expires_in := 8726400 }

/-- Concrete CSRF state record issued at time 0. -/
def sampleState : StateRecord :=
  { createdAt := 0, redirectUri := "http://localhost:3001/api/oauth/callback" }

/-- Concrete store state: one token record under `realm1`, one CSRF state
under `st1`. -/
def sampleSys : Sys :=
  { tokenStore := fun k => if k = "realm1" then some sampleRec else none
    stateStore := fun k => if k = "st1" then some sampleState else none }

/-- Sample record as it stands while another caller's refresh is in
flight: the in-flight flag is set. -/
def refreshingRec : TokenRecord := { sampleRec with isRefreshing := true }

/-- Store state in which `realm1` has a refresh in flight. -/
def refreshingSys : Sys :=
  { tokenStore := fun k => if k = "realm1" then some refreshingRec else none
    stateStore := fun _ => none }

/-- Sanity lemma: the two phases compose to the single-run embedding, so an
uninterleaved run of the phases is exactly `getAccessToken`. -/
theorem getAccessToken_phases (realmId : String)
    (fetchRes : FetchResult RefreshBody) (environment : String) (now : Nat)
    (s : Sys) :
    getAccessToken realmId fetchRes environment now s =
      match getAccessTokenPhase1 realmId now s with
      | (Phase1Result.done out, s1) =>
        { outcome := out, sys := s1, networkCall := false }
      | (Phase1Result.awaitingFetch rec, s1) =>
        getAccessTokenPhase2 realmId rec fetchRes environment now s1 := by
  by_cases h0 : realmId = ""
  · simp [getAccessToken, getAccessTokenPhase1, h0]
  · cases h1 : s.tokenStore realmId with
    | none => simp [getAccessToken, getAccessTokenPhase1, h0, h1]
    | some rec =>
      by_cases h2 : needsRefreshAt rec now ∧ rec.isRefreshing = false
      · cases fetchRes <;>
          simp [getAccessToken, getAccessTokenPhase1, getAccessTokenPhase2,
            h0, h1, h2]
      · simp [getAccessToken, getAccessTokenPhase1, h0, h1, h2]

/-- C7: for every tenant with no TokenRecord, `getAccessToken` fails
not-connected, the `/token` route answers 404 with `requiresAuth`, and
`/status` answers connected=false; none of the three creates or mutates any
record (the store state is returned unchanged) and no network call is
issued. -/
theorem C7_not_connected (rid : String) (fr fr2 : FetchResult RefreshBody)
    (env : String) (now now2 now3 : Nat) (s : Sys)
    (h1 : rid ≠ "") (h2 : s.tokenStore rid = none) :
    (getAccessToken rid fr env now s).outcome = TokenOutcome.errNotConnected ∧
    (getAccessToken rid fr env now s).sys = s ∧
    (getAccessToken rid fr env now s).networkCall = false ∧
    (tokenRouteHandler (some rid) fr2 env now2 s).outcome
      = TokenRouteOutcome.notFoundRequiresAuth ∧
    (tokenRouteHandler (some rid) fr2 env now2 s).sys = s ∧
    (tokenRouteHandler (some rid) fr2 env now2 s).networkCall = false ∧
    statusHandler (some rid) now3 s = StatusOutcome.notConnected := by
  simp [getAccessToken, tokenRouteHandler, statusHandler, truthyStr, h1, h2]

/-- Witness for C7 at a tenant absent from the concrete store. -/
theorem C7_not_connected_witness :
    ("ghost" : String) ≠ "" ∧ sampleSys.tokenStore "ghost" = none ∧
    (getAccessToken "ghost" (FetchResult.thrown "net") "sandbox" 0 sampleSys).outcome
      = TokenOutcome.errNotConnected ∧
    statusHandler (some "ghost") 0 sampleSys = StatusOutcome.notConnected := by
  have h1 : ("ghost" : String) ≠ "" := by decide
  have h2 : sampleSys.tokenStore "ghost" = none := by decide
  have h := C7_not_connected "ghost" (FetchResult.thrown "net")
    (FetchResult.thrown "net") "sandbox" 0 0 0 sampleSys h1 h2
  exact ⟨h1, h2, h.1, h.2.2.2.2.2.2⟩

/-- C8: revoke with a tenant id always answers success (either success
variant), always leaves no TokenRecord for the tenant — whatever the remote
revoke call did, including a thrown network error — and a subsequent status
reports connected=false. -/
theorem C8_revoke_idempotent (rid : String) (rres : FetchResult Unit)
    (s : Sys) (now : Nat) (h1 : rid ≠ "") :
    ((revokeHandler (some rid) rres s).1 = RevokeOutcome.okRevoked ∨
      (revokeHandler (some rid) rres s).1 = RevokeOutcome.okNothingToRevoke) ∧
    (revokeHandler (some rid) rres s).2.tokenStore rid = none ∧
    (statusHandler (some rid) now (revokeHandler (some rid) rres s).2).isConnected
      = false := by
  cases h2 : s.tokenStore rid with
  | none =>
    simp [revokeHandler, statusHandler, truthyStr, h1, h2,
      StatusOutcome.isConnected]
  | some rec =>
    simp [revokeHandler, statusHandler, Sys.delTok, updStore, truthyStr,
      h1, h2, StatusOutcome.isConnected]

/-- Witness for C8 with a present record and a failed remote revoke call. -/
theorem C8_revoke_idempotent_witness :
    ("realm1" : String) ≠ "" ∧
    (revokeHandler (some "realm1") (FetchResult.thrown "timeout") sampleSys).2.tokenStore
      "realm1" = none ∧
    (statusHandler (some "realm1") 0
      (revokeHandler (some "realm1") (FetchResult.thrown "timeout") sampleSys).2).isConnected
      = false := by
  have h1 : ("realm1" : String) ≠ "" := by decide
  have h := C8_revoke_idempotent "realm1" (FetchResult.thrown "timeout")
    sampleSys 0 h1
  exact ⟨h1, h.2.1, h.2.2⟩

/-- C6: when the refresh token's own expiry has passed, the explicit refresh
endpoint answers the expired error, deletes the TokenRecord, and a
subsequent status reports connected=false. -/
theorem C6_refresh_token_expired (rid : String) (rec : TokenRecord)
    (fr : FetchResult RefreshBody) (env : String) (now now2 : Nat) (s : Sys)
    (h1 : rid ≠ "") (h2 : s.tokenStore rid = some rec)
    (h3 : rec.refreshToken ≠ "") (h4 : now ≥ rec.refreshTokenExpiresAt) :
    (refreshHandler (some rid) fr env now s).1
      = RefreshOutcome.refreshTokenExpired ∧
    (refreshHandler (some rid) fr env now s).2.tokenStore rid = none ∧
    (statusHandler (some rid) now2
      (refreshHandler (some rid) fr env now s).2).isConnected = false := by
  simp [refreshHandler, statusHandler, Sys.delTok, updStore, truthyStr,
    h1, h2, h3, h4, StatusOutcome.isConnected]

/-- Witness for C6 at time 9000000, past the sample record's refresh-token
expiry. -/
theorem C6_refresh_token_expired_witness :
    ("realm1" : String) ≠ "" ∧
    sampleSys.tokenStore "realm1" = some sampleRec ∧
    sampleRec.refreshToken ≠ "" ∧
    9000000 ≥ sampleRec.refreshTokenExpiresAt ∧
    (refreshHandler (some "realm1") (FetchResult.ok sampleBody) "sandbox"
      9000000 sampleSys).1 = RefreshOutcome.refreshTokenExpired ∧
    (refreshHandler (some "realm1") (FetchResult.ok sampleBody) "sandbox"
      9000000 sampleSys).2.tokenStore "realm1" = none := by
  have h1 : ("realm1" : String) ≠ "" := by decide
  have h2 : sampleSys.tokenStore "realm1" = some sampleRec := by decide
  have h3 : sampleRec.refreshToken ≠ "" := by decide
  have h4 : 9000000 ≥ sampleRec.refreshTokenExpiresAt := by decide
  have h := C6_refresh_token_expired "realm1" sampleRec
    (FetchResult.ok sampleBody) "sandbox" 9000000 0 sampleSys h1 h2 h3 h4
  exact ⟨h1, h2, h3, h4, h.1, h.2.1⟩

/-- C10: when the automatic refresh inside `getAccessToken` fails — the
provider answers non-ok, or the network call throws — the stored
TokenRecord is unchanged (in particular not deleted; the in-flight flag is
written back to `false`, its value before the run), and the failure is
propagated as the outcome. -/
theorem C10_refresh_failure_frame (rid : String) (rec : TokenRecord)
    (env : String) (now : Nat) (s : Sys) (status : Nat) (errMsg msg : String)
    (h1 : rid ≠ "") (h2 : s.tokenStore rid = some rec)
    (h3 : rec.isRefreshing = false) (h4 : needsRefreshAt rec now = true) :
    (getAccessToken rid (FetchResult.notOk status errMsg) env now s).outcome
      = TokenOutcome.errRefreshFailed errMsg ∧
    (getAccessToken rid (FetchResult.notOk status errMsg) env now s).sys.tokenStore
      rid = some rec ∧
    (getAccessToken rid (FetchResult.thrown msg) env now s).outcome
      = TokenOutcome.errThrown msg ∧
    (getAccessToken rid (FetchResult.thrown msg) env now s).sys.tokenStore
      rid = some rec := by
  have hrec : { rec with isRefreshing := false } = rec := by
    cases rec
    simp_all
  simp [getAccessToken, Sys.setTok, updStore, h1, h2, h3, h4, hrec]

/-- Witness for C10 at the stale sample record. -/
theorem C10_refresh_failure_frame_witness :
    ("realm1" : String) ≠ "" ∧
    sampleSys.tokenStore "realm1" = some sampleRec ∧
    sampleRec.isRefreshing = false ∧
    needsRefreshAt sampleRec 900000 = true ∧
    (getAccessToken "realm1" (FetchResult.notOk 401 "invalid_grant") "sandbox"
      900000 sampleSys).sys.tokenStore "realm1" = some sampleRec := by
  have h1 : ("realm1" : String) ≠ "" := by decide
  have h2 : sampleSys.tokenStore "realm1" = some sampleRec := by decide
  have h3 : sampleRec.isRefreshing = false := by decide
  have h4 : needsRefreshAt sampleRec 900000 = true := by decide
  have h := C10_refresh_failure_frame "realm1" sampleRec "sandbox" 900000
    sampleSys 401 "invalid_grant" "net" h1 h2 h3 h4
  exact ⟨h1, h2, h3, h4, h.2.1⟩

/-- C5: a callback that finds its state value in the StateStore deletes it
immediately, whatever the exchange then does; replaying any callback with
the same state value afterwards fails with the invalid-or-expired-state
outcome. -/
theorem C5_state_single_use (q : CallbackQuery)
    (exch exch2 : FetchResult ExchangeBody) (env env2 : String)
    (now now2 : Nat) (s : Sys) (stv : String) (srec : StateRecord)
    (h1 : truthyStr q.error = false) (h2 : truthyStr q.code = true)
    (h3 : q.state = some stv) (h4 : stv ≠ "")
    (h5 : s.stateStore stv = some srec) :
    (callbackHandler q exch env now s).2.stateStore stv = none ∧
    (callbackHandler q exch2 env2 now2 (callbackHandler q exch env now s).2).1
      = CallbackOutcome.invalidOrExpiredState := by
  have hst : truthyStr (some stv) = true := by simp [truthyStr, h4]
  have r1state : (callbackHandler q exch env now s).2.stateStore stv = none := by
    cases exch <;> by_cases hr : truthyStr q.realmId = true <;>
      simp [callbackHandler, h1, h2, h3, hst, h5, hr, Sys.delState,
        Sys.setTok, updStore]
  refine ⟨r1state, ?_⟩
  generalize hgen : (callbackHandler q exch env now s).2 = s2 at r1state
  simp [callbackHandler, h1, h2, h3, hst, r1state]

/-- Witness for C5: a concrete callback consuming state `st1`, then replayed. -/
theorem C5_state_single_use_witness :
    (sampleSys.stateStore "st1" = some sampleState) ∧
    (callbackHandler
      { code := some "authcode", state := some "st1"
        realmId := some "realm1", error := none }
      (FetchResult.ok sampleExchange) "sandbox" 900000 sampleSys).2.stateStore
      "st1" = none ∧
    (callbackHandler
      { code := some "authcode", state := some "st1"
        realmId := some "realm1", error := none }
      (FetchResult.ok sampleExchange) "sandbox" 900000
      (callbackHandler
        { code := some "authcode", state := some "st1"
          realmId := some "realm1", error := none }
        (FetchResult.ok sampleExchange) "sandbox" 900000 sampleSys).2).1
      = CallbackOutcome.invalidOrExpiredState := by
  have h5 : sampleSys.stateStore "st1" = some sampleState := by decide
  have h := C5_state_single_use
    { code := some "authcode", state := some "st1"
      realmId := some "realm1", error := none }
    (FetchResult.ok sampleExchange) (FetchResult.ok sampleExchange)
    "sandbox" "sandbox" 900000 900000 sampleSys "st1" sampleState
    (by decide) (by decide) rfl (by decide) h5
  exact ⟨h5, h.1, h.2⟩

/-- C1 counterexample: with `realm1` stale at time 900000, caller A's
synchronous prefix sets the in-flight flag; caller B then runs to
completion before A's provider call resolves (a legal Node interleaving: B
is scheduled while A awaits `fetch`).  B makes no network call but resolves
to the stale token `oldAT`, while A's continuation resolves to the
refreshed token `newAT` — so not all concurrent callers observe the result
of the single refresh, and B receives a stale token. -/
theorem C1_counterexample :
    needsRefreshAt sampleRec 900000 = true ∧
    (getAccessTokenPhase1 "realm1" 900000 sampleSys).1
      = Phase1Result.awaitingFetch sampleRec ∧
    (getAccessToken "realm1" (FetchResult.ok sampleBody) "sandbox" 900000
      (getAccessTokenPhase1 "realm1" 900000 sampleSys).2).outcome
      = TokenOutcome.ok "oldAT" "realm1" ∧
    (getAccessToken "realm1" (FetchResult.ok sampleBody) "sandbox" 900000
      (getAccessTokenPhase1 "realm1" 900000 sampleSys).2).networkCall
      = false ∧
    (getAccessTokenPhase2 "realm1" sampleRec (FetchResult.ok sampleBody)
      "sandbox" 900000
      (getAccessToken "realm1" (FetchResult.ok sampleBody) "sandbox" 900000
        (getAccessTokenPhase1 "realm1" 900000 sampleSys).2).sys).outcome
      = TokenOutcome.ok "newAT" "realm1" ∧
    ("oldAT" : String) ≠ "newAT" := by
  decide

/-- C1 amended: the boolean flag only prevents a second network call, it
does not coalesce results — any caller that finds a refresh in flight for a
stale record immediately returns the currently stored (stale) access token,
issues no network call, and leaves the store untouched. -/
theorem C1_coalescing_amended (rid : String) (rec : TokenRecord)
    (fr : FetchResult RefreshBody) (env : String) (now : Nat) (s : Sys)
    (h1 : rid ≠ "") (h2 : s.tokenStore rid = some rec)
    (h3 : rec.isRefreshing = true) (h4 : needsRefreshAt rec now = true) :
    (getAccessToken rid fr env now s).outcome
      = TokenOutcome.ok rec.accessToken rec.realmId ∧
    (getAccessToken rid fr env now s).networkCall = false ∧
    (getAccessToken rid fr env now s).sys = s := by
  simp [getAccessToken, h1, h2, h3, h4]

/-- Witness for the amended C1 at a concrete in-flight record. -/
theorem C1_coalescing_amended_witness :
    ("realm1" : String) ≠ "" ∧
    refreshingSys.tokenStore "realm1" = some refreshingRec ∧
    refreshingRec.isRefreshing = true ∧
    needsRefreshAt refreshingRec 900000 = true ∧
    (getAccessToken "realm1" (FetchResult.ok sampleBody) "sandbox" 900000
      refreshingSys).outcome
      = TokenOutcome.ok refreshingRec.accessToken refreshingRec.realmId ∧
    (getAccessToken "realm1" (FetchResult.ok sampleBody) "sandbox" 900000
      refreshingSys).networkCall = false := by
  have h1 : ("realm1" : String) ≠ "" := by decide
  have h2 : refreshingSys.tokenStore "realm1" = some refreshingRec := by decide
  have h3 : refreshingRec.isRefreshing = true := by decide
  have h4 : needsRefreshAt refreshingRec 900000 = true := by decide
  have h := C1_coalescing_amended "realm1" refreshingRec
    (FetchResult.ok sampleBody) "sandbox" 900000 refreshingSys h1 h2 h3 h4
  exact ⟨h1, h2, h3, h4, h.1, h.2.1⟩

/-- C2 counterexample: state `st1` was created at time 0 and is presented
at time 900000 — fifteen minutes old — yet it is still in the StateStore
(no authorize call purged it), and the callback accepts it and succeeds
instead of rejecting it as invalid or expired. -/
theorem C2_counterexample :
    sampleState.createdAt + tenMinutesMs < 900000 ∧
    sampleSys.stateStore "st1" = some sampleState ∧
    (callbackHandler
      { code := some "authcode", state := some "st1"
        realmId := some "realm1", error := none }
      (FetchResult.ok sampleExchange) "sandbox" 900000 sampleSys).1
      = CallbackOutcome.success (some "realm1") ∧
    (callbackHandler
      { code := some "authcode", state := some "st1"
        realmId := some "realm1", error := none }
      (FetchResult.ok sampleExchange) "sandbox" 900000 sampleSys).1
      ≠ CallbackOutcome.invalidOrExpiredState := by
  decide

/-- C2 amended: the callback itself only checks presence; a StateRecord
older than ten minutes is removed only by the opportunistic purge an
authorize run performs, after which presenting it does fail with the
invalid-or-expired-state outcome. -/
theorem C2_ttl_amended (s : Sys) (oldState newState uri : String)
    (srec : StateRecord) (now now2 : Nat) (q : CallbackQuery)
    (exch : FetchResult ExchangeBody) (env : String)
    (h1 : s.stateStore oldState = some srec)
    (h2 : srec.createdAt + tenMinutesMs < now)
    (h3 : oldState ≠ newState)
    (h4 : truthyStr q.error = false) (h5 : truthyStr q.code = true)
    (h6 : q.state = some oldState) (h7 : oldState ≠ "") :
    (authorizeHandler true newState uri now s).2.stateStore oldState = none ∧
    (callbackHandler q exch env now2
      (authorizeHandler true newState uri now s).2).1
      = CallbackOutcome.invalidOrExpiredState := by
  have hst : truthyStr (some oldState) = true := by simp [truthyStr, h7]
  have hlt : srec.createdAt < now - tenMinutesMs := by omega
  have hpurged : (authorizeHandler true newState uri now s).2.stateStore
      oldState = none := by
    simp [authorizeHandler, purgeStates, Sys.setState, updStore, h3, h1, hlt]
  refine ⟨hpurged, ?_⟩
  generalize hgen : (authorizeHandler true newState uri now s).2 = s2 at hpurged
  simp [callbackHandler, h4, h5, h6, hst, hpurged]

/-- Witness for the amended C2: an authorize run at time 900000 purges
`st1` (created at 0), and a callback presenting `st1` then fails. -/
theorem C2_ttl_amended_witness :
    sampleSys.stateStore "st1" = some sampleState ∧
    sampleState.createdAt + tenMinutesMs < 900000 ∧
    (authorizeHandler true "st2" "uri" 900000 sampleSys).2.stateStore "st1"
      = none ∧
    (callbackHandler
      { code := some "authcode", state := some "st1"
        realmId := some "realm1", error := none }
      (FetchResult.ok sampleExchange) "sandbox" 900000
      (authorizeHandler true "st2" "uri" 900000 sampleSys).2).1
      = CallbackOutcome.invalidOrExpiredState := by
  have h1 : sampleSys.stateStore "st1" = some sampleState := by decide
  have h2 : sampleState.createdAt + tenMinutesMs < 900000 := by decide
  have h := C2_ttl_amended sampleSys "st1" "st2" "uri" sampleState 900000
    900000
    { code := some "authcode", state := some "st1"
      realmId := some "realm1", error := none }
    (FetchResult.ok sampleExchange) "sandbox" h1 h2 (by decide) (by decide)
    (by decide) rfl (by decide)
  exact ⟨h1, h2, h.1, h.2⟩

/-- C3 counterexample: with `realm1` stale at time 900000, the auto-refresh
performed by the `/token` handler is rejected by the provider, yet the
TokenRecord is not deleted — the store still holds `sampleRec` and a
subsequent status query still reports connected=true. -/
theorem C3_counterexample :
    (tokenRouteHandler (some "realm1") (FetchResult.notOk 400 "invalid_grant")
      "sandbox" 900000 sampleSys).outcome
      = TokenRouteOutcome.refreshFailedReconnect ∧
    (tokenRouteHandler (some "realm1") (FetchResult.notOk 400 "invalid_grant")
      "sandbox" 900000 sampleSys).sys.tokenStore "realm1" = some sampleRec ∧
    (statusHandler (some "realm1") 900000
      (tokenRouteHandler (some "realm1")
        (FetchResult.notOk 400 "invalid_grant") "sandbox" 900000
        sampleSys).sys).isConnected = true := by
  decide

/-- C3 amended: only the explicit refresh endpoint deletes the TokenRecord
and fails on provider rejection (after which status reports
connected=false); the refresh performed inside the token-fetch path fails
with the reconnect error but leaves the TokenRecord in place. -/
theorem C3_refresh_rejected_amended (rid : String) (rec : TokenRecord)
    (status : Nat) (errMsg : String) (env : String) (now now2 : Nat) (s : Sys)
    (h1 : rid ≠ "") (h2 : s.tokenStore rid = some rec)
    (h3 : rec.refreshToken ≠ "") (h4 : now < rec.refreshTokenExpiresAt)
    (h5 : rec.isRefreshing = false) (h6 : needsRefreshAt rec now = true) :
    (refreshHandler (some rid) (FetchResult.notOk status errMsg) env now s).1
      = RefreshOutcome.refreshRejected status errMsg ∧
    (refreshHandler (some rid) (FetchResult.notOk status errMsg) env now
      s).2.tokenStore rid = none ∧
    (statusHandler (some rid) now2
      (refreshHandler (some rid) (FetchResult.notOk status errMsg) env now
        s).2).isConnected = false ∧
    (tokenRouteHandler (some rid) (FetchResult.notOk status errMsg) env now
      s).outcome = TokenRouteOutcome.refreshFailedReconnect ∧
    (tokenRouteHandler (some rid) (FetchResult.notOk status errMsg) env now
      s).sys.tokenStore rid = some rec := by
  have h4n : ¬ (now ≥ rec.refreshTokenExpiresAt) := by omega
  have hrec : { rec with isRefreshing := false } = rec := by
    cases rec
    simp_all
  refine ⟨?_, ?_, ?_, ?_, ?_⟩ <;>
    simp [refreshHandler, tokenRouteHandler, statusHandler, Sys.delTok,
      Sys.setTok, updStore, truthyStr, h1, h2, h3, h4n, h5, h6, hrec,
      StatusOutcome.isConnected]

/-- Witness for the amended C3 at the stale sample record. -/
theorem C3_refresh_rejected_amended_witness :
    ("realm1" : String) ≠ "" ∧
    sampleSys.tokenStore "realm1" = some sampleRec ∧
    900000 < sampleRec.refreshTokenExpiresAt ∧
    needsRefreshAt sampleRec 900000 = true ∧
    (refreshHandler (some "realm1") (FetchResult.notOk 400 "invalid_grant")
      "sandbox" 900000 sampleSys).2.tokenStore "realm1" = none ∧
    (tokenRouteHandler (some "realm1") (FetchResult.notOk 400 "invalid_grant")
      "sandbox" 900000 sampleSys).sys.tokenStore "realm1" = some sampleRec := by
  have h1 : ("realm1" : String) ≠ "" := by decide
  have h2 : sampleSys.tokenStore "realm1" = some sampleRec := by decide
  have h4 : 900000 < sampleRec.refreshTokenExpiresAt := by decide
  have h6 : needsRefreshAt sampleRec 900000 = true := by decide
  have h := C3_refresh_rejected_amended "realm1" sampleRec 400 "invalid_grant"
    "sandbox" 900000 0 sampleSys h1 h2 (by decide) h4 (by decide) h6
  exact ⟨h1, h2, h4, h6, h.2.1, h.2.2.2.2⟩

/-- C4 counterexample: a callback with a valid state and a successful code
exchange but no `realmId` in the query yields the success redirect while
storing nothing — the token store is returned unchanged — so a success
outcome is not only yielded when a TokenRecord has been stored. -/
theorem C4_counterexample :
    (callbackHandler
      { code := some "authcode", state := some "st1", realmId := none
        error := none }
      (FetchResult.ok sampleExchange) "sandbox" 900000 sampleSys).1
      = CallbackOutcome.success none ∧
    (callbackHandler
      { code := some "authcode", state := some "st1", realmId := none
        error := none }
      (FetchResult.ok sampleExchange) "sandbox" 900000 sampleSys).2.tokenStore
      = sampleSys.tokenStore := by
  exact ⟨by decide, rfl⟩

/-- C4 amended: when the callback query does carry a tenant id, a valid
state and a successful exchange store a TokenRecord for it — absolute
expiries computed from the provider's relative lifetimes — and yield the
success outcome; when the tenant id is absent the success outcome is
yielded without storing anything. -/
theorem C4_callback_stores_amended (q : CallbackQuery) (body : ExchangeBody)
    (env : String) (now : Nat) (s : Sys) (stv rid : String)
    (srec : StateRecord)
    (h1 : truthyStr q.error = false) (h2 : truthyStr q.code = true)
    (h3 : q.state = some stv) (h4 : stv ≠ "")
    (h5 : s.stateStore stv = some srec)
    (h6 : q.realmId = some rid) (h7 : rid ≠ "") :
    (callbackHandler q (FetchResult.ok body) env now s).1
      = CallbackOutcome.success (some rid) ∧
    (callbackHandler q (FetchResult.ok body) env now s).2.tokenStore rid
      = some { accessToken := body.access_token
               refreshToken := body.refresh_token
               expiresAt := now + body.expires_in * 1000
               refreshTokenExpiresAt :=
                 now + body.x_refresh_token_expires_in * 1000
               realmId := rid, environment := env, updatedAt := now
               isRefreshing := false } := by
  have hst : truthyStr (some stv) = true := by simp [truthyStr, h4]
  have hrid : truthyStr (some rid) = true := by simp [truthyStr, h7]
  simp [callbackHandler, h1, h2, h3, hst, h5, h6, hrid, Sys.delState,
    Sys.setTok, updStore, exchangedRecord]

/-- Witness for the amended C4: a concrete successful callback for
`realm1`. -/
theorem C4_callback_stores_amended_witness :
    sampleSys.stateStore "st1" = some sampleState ∧
    (callbackHandler
      { code := some "authcode", state := some "st1"
        realmId := some "realm1", error := none }
      (FetchResult.ok sampleExchange) "sandbox" 900000 sampleSys).1
      = CallbackOutcome.success (some "realm1") ∧
    (callbackHandler
      { code := some "authcode", state := some "st1"
        realmId := some "realm1", error := none }
      (FetchResult.ok sampleExchange) "sandbox" 900000 sampleSys).2.tokenStore
      "realm1"
      = some { accessToken := "exAT", refreshToken := "exRT"
               expiresAt := 900000 + 3600 * 1000
               refreshTokenExpiresAt := 900000 + 8726400 * 1000
               realmId := "realm1", environment := "sandbox"
               updatedAt := 900000, isRefreshing := false } := by
  have h5 : sampleSys.stateStore "st1" = some sampleState := by decide
  have h := C4_callback_stores_amended
    { code := some "authcode", state := some "st1"
      realmId := some "realm1", error := none }
    sampleExchange "sandbox" 900000 sampleSys "st1" "realm1" sampleState
    (by decide) (by decide) rfl (by decide) h5 rfl (by decide)
  exact ⟨h5, h.1, h.2⟩

/-- C9 counterexample: `realm1`'s record was issued by the production
deployment, but the refresh runs while the process is configured for
sandbox; the successful refresh stores a record whose environment is
`sandbox`, not the replaced record's `production`. -/
theorem C9_counterexample :
    sampleRec.environment = "production" ∧
    (refreshHandler (some "realm1") (FetchResult.ok sampleBody) "sandbox"
      900000 sampleSys).1 = RefreshOutcome.ok 3600 ∧
    (refreshHandler (some "realm1") (FetchResult.ok sampleBody) "sandbox"
      900000 sampleSys).2.tokenStore "realm1"
      = some (refreshedRecord sampleRec sampleBody "realm1" "sandbox"
          900000) ∧
    (refreshedRecord sampleRec sampleBody "realm1" "sandbox"
      900000).environment ≠ sampleRec.environment := by
  decide

/-- C9 amended: a successful refresh writes the currently configured
environment into the new record, so the environment is preserved exactly
when the configuration equals the replaced record's environment — both on
the explicit refresh endpoint and inside `getAccessToken`. -/
theorem C9_env_preserved_amended (rid : String) (rec : TokenRecord)
    (body : RefreshBody) (env : String) (now : Nat) (s : Sys)
    (h1 : rid ≠ "") (h2 : s.tokenStore rid = some rec)
    (h3 : rec.refreshToken ≠ "") (h4 : now < rec.refreshTokenExpiresAt)
    (h5 : rec.isRefreshing = false) (h6 : needsRefreshAt rec now = true)
    (h7 : env = rec.environment) :
    (refreshHandler (some rid) (FetchResult.ok body) env now s).2.tokenStore
      rid = some (refreshedRecord rec body rid env now) ∧
    (getAccessToken rid (FetchResult.ok body) env now s).sys.tokenStore rid
      = some (refreshedRecord rec body rid env now) ∧
    (refreshedRecord rec body rid env now).environment = rec.environment := by
  have h4n : ¬ (now ≥ rec.refreshTokenExpiresAt) := by omega
  refine ⟨?_, ?_, ?_⟩ <;>
    simp [refreshHandler, getAccessToken, refreshedRecord, Sys.setTok,
      updStore, truthyStr, h1, h2, h3, h4n, h5, h6, h7]

/-- Witness for the amended C9 with matching production configuration. -/
theorem C9_env_preserved_amended_witness :
    sampleSys.tokenStore "realm1" = some sampleRec ∧
    (refreshedRecord sampleRec sampleBody "realm1" "production"
      900000).environment = sampleRec.environment ∧
    (refreshHandler (some "realm1") (FetchResult.ok sampleBody) "production"
      900000 sampleSys).2.tokenStore "realm1"
      = some (refreshedRecord sampleRec sampleBody "realm1" "production"
          900000) := by
  have h2 : sampleSys.tokenStore "realm1" = some sampleRec := by decide
  have h := C9_env_preserved_amended "realm1" sampleRec sampleBody
    "production" 900000 sampleSys (by decide) h2 (by decide) (by decide)
    (by decide) (by decide) (by decide)
  exact ⟨h2, h.2.2, h.1⟩
